import Mathlib

/-!
Shallow embedding of the Wayland window presentation state machine of
gst-libs/gst/wayland/gstwlwindow.c (GstWlWindow).

Pure data is translated directly; every protocol request, signal emission,
lock operation and buffer reference operation performed by the C code is
recorded as an event in an output trace, in program order.  Stateful C
functions become functions WinState -> WinState x List Ev (render
additionally returns its gboolean result).

The one blocking point of the C code, the g_cond_wait loop on redraw_wait
inside gst_wl_window_render, is modelled by defining render as the
behaviour of a call that does not need to wait: the composed function is
exact precisely when redraw_pending is false at the moment the window lock
is taken (otherwise the C caller sleeps until frame_redraw_callback clears
the flag and then proceeds identically on the then-current state), so the
theorems about render carry that flag as a hypothesis.
-/

namespace GstWlWindow

/-- GstVideoRectangle: gint x, y, w, h. -/
structure Rect where
  x : Int
  y : Int
  w : Int
  h : Int
deriving DecidableEq

/-- The fields of GstVideoInfo that gstwlwindow.c reads: width, height,
pixel-aspect-ratio numerator and denominator, and whether the format has an
alpha component (GST_VIDEO_INFO_HAS_ALPHA). -/
structure VideoInfo where
  width : Int
  height : Int
  parN : Int
  parD : Int
  hasAlpha : Bool
deriving DecidableEq

/-- GstVideoCropMeta fields read by gst_wl_window_set_source_crop. -/
structure CropMeta where
  x : Int
  y : Int
  width : Int
  height : Int
deriving DecidableEq

/-- A GstWlBuffer as seen by the window code: an identity for the wrapped
GstBuffer plus the used_by_compositor flag
(gst_wl_buffer_get_used_by_compositor). -/
structure WlBuffer where
  id : Nat
  usedByCompositor : Bool
deriving DecidableEq

/-- enum wl_output_transform (the eight cases dispatched in
gst_wl_window_resize_video_surface). -/
inductive OutputTfm where
  | normal
  | rot90
  | rot180
  | rot270
  | flipped
  | flipped90
  | flipped180
  | flipped270
deriving DecidableEq

/-- The two wl_surface objects of the surface pair. -/
inductive SurfId where
  | video
  | area
deriving DecidableEq

/-- Observable actions of the window code, in program order: Wayland
protocol requests, GObject signal emissions, lock operations, buffer
reference counting, and logging.  Only requests the claims need carry their
arguments. -/
inductive Ev where
  /-- gst_wl_buffer_ref_gst_buffer at the top of render -/
  | ref_gst_buffer (b : Nat)
  /-- gst_wl_buffer_unref_buffer -/
  | unref_buffer (b : Nat)
  | lock_window
  | unlock_window
  /-- g_cond_signal on redraw_wait -/
  | signal_redraw_wait
  | lock_commit
  | unlock_commit
  | lock_render
  | unlock_render
  /-- gst_wl_display_sync: request the commit callback -/
  | display_sync_commit_cb
  | display_flush
  | destroy_frame_cb
  | destroy_commit_cb
  /-- entry into gst_wl_window_commit_buffer with the given buffer id -/
  | commit_buffer_call (b : Option Nat)
  /-- wl_subsurface_set_sync on video_subsurface -/
  | subsurface_set_sync
  /-- wl_subsurface_set_desync on video_subsurface -/
  | subsurface_set_desync
  | video_viewport_set_destination (w h : Int)
  | video_viewport_set_source (x y w h : Int)
  | video_subsurface_set_position (x y : Int)
  /-- wl_surface_set_buffer_transform on the video surface wrapper -/
  | set_buffer_transform
  /-- wl_surface_set_opaque_region on the video surface -/
  | set_opaque_region
  /-- zwp_linux_surface_synchronization_v1_get_release plus
      zwp_linux_buffer_release_v1_add_listener for buffer b -/
  | create_buffer_release (b : Nat)
  /-- wl_surface_frame plus wl_callback_add_listener -/
  | request_frame_cb
  /-- gst_wl_buffer_attach of buffer b to the video surface wrapper -/
  | attach (b : Nat)
  /-- wl_surface_attach (surface, NULL, 0, 0) -/
  | attach_null (s : SurfId)
  | set_buffer_scale (n : Nat)
  | damage (s : SurfId)
  /-- wl_surface_commit -/
  | commit (s : SurfId)
  /-- g_signal_emit of the map signal -/
  | emit_map
  /-- g_signal_emit of the closed signal -/
  | emit_closed
  | area_viewport_set_destination (w h : Int)
  /-- allocation of the border buffer in gst_wl_window_update_borders;
      true when the single-pixel-buffer manager path is taken -/
  | create_border_buffer (single_pixel : Bool) (w h : Int)
  /-- gst_wl_buffer_attach of the border buffer to the area surface -/
  | attach_border
  | area_subsurface_set_position (x y : Int)
  /-- xdg_surface_ack_configure -/
  | ack_configure
  /-- g_cond_signal on configure_cond -/
  | signal_configure
  /-- GST_WARNING: the compositor did not send configure event -/
  | warn_configure_timeout
  /-- zwp_fullscreen_shell_v1_present_surface -/
  | present_fullscreen_shell
  /-- creation of xdg_surface and xdg_toplevel with their listeners -/
  | xdg_setup
  /-- xdg_toplevel_set_fullscreen / xdg_toplevel_unset_fullscreen -/
  | set_fullscreen (flag : Bool)
deriving DecidableEq

/-- The GstWlWindowPrivate fields the state machine reads and writes,
together with the capability facts fixed at window construction (non-NULL
protocol objects and the HAS_DCSS platform query), which the C code tests
as pointers. -/
structure WinState where
  render_rectangle : Rect
  video_rectangle : Rect
  video_width : Int
  video_height : Int
  scaled_width : Int
  buffer_transform : OutputTfm
  is_area_surface_mapped : Bool
  configured : Bool
  redraw_pending : Bool
  next_buffer : Option WlBuffer
  next_video_info : Option VideoInfo
  staged_buffer : Option WlBuffer
  clear_window : Bool
  src_x : Int
  src_y : Int
  src_width : Int
  src_height : Int
  scale : Nat
  fullscreen_width : Int
  fullscreen_height : Int
  has_area_subsurface : Bool
  has_viewporter : Bool
  has_surface_sync : Bool
  has_single_pixel : Bool
  has_dcss : Bool
deriving DecidableEq

/-- Reinterpretation of a natural number as a gint through the 32-bit
two.s-complement bit pattern. -/
def toInt32 (n : Nat) : Int :=
  let m : Nat := n % 2 ^ 32
  if m < 2 ^ 31 then (m : Int) else (m : Int) - 2 ^ 32

/-- Bit pattern of a gint viewed as guint (two.s complement). -/
def toUInt32n (i : Int) : Nat := (i % (2 ^ 32 : Int)).toNat

/-- C division gint / guint: the usual arithmetic conversions convert the
signed operand to unsigned, divide, and the result is stored back as gint
(used for the src_x / priv-scale expressions in resize_video_surface). -/
def cUDiv (a : Int) (b : Nat) : Int := toInt32 (toUInt32n a / b)

/-- wl_fixed_from_int: 24.8 fixed point. -/
def wl_fixed_from_int (i : Int) : Int := i * 256

/-- gst_util_uint64_scale_int_round (external GStreamer helper): scale v by
n / d with round-half-up.  No claim depends on its arithmetic. -/
def scale_int_round (v n d : Int) : Int := (v * n + d / 2) / d

/-- Modelled from the external GStreamer helper gst_video_center_rect
(gst_video_sink_center_rect): centre src inside dst, either 1:1 clipped
(scaling = false) or aspect-fit (scaling = true, floating point in the
original, mirrored here over the integers).  No claim below depends on the
arithmetic of this helper, only on which protocol requests surround it. -/
def center_rect (src dst : Rect) (scaling : Bool) : Rect :=
  if scaling then
    if src.h * dst.w ≤ dst.h * src.w then
      let h := if src.w = 0 then 0 else dst.w * src.h / src.w
      ⟨dst.x, dst.y + (dst.h - h) / 2, dst.w, h⟩
    else
      let w := if src.h = 0 then 0 else dst.h * src.w / src.h
      ⟨dst.x + (dst.w - w) / 2, dst.y, w, dst.h⟩
  else
    let w := min src.w dst.w
    let h := min src.h dst.h
    ⟨dst.x + (dst.w - w) / 2, dst.y + (dst.h - h) / 2, w, h⟩

/-- Body of gst_wl_window_resize_video_surface: the destination rectangle
of the video subsurface, computed from the per-transform source size and
the render rectangle, together with the viewport / position / transform
requests issued (plus the video commit when commit is true). -/
def resize_video_surface_calc (s : WinState) (commit : Bool) :
    Rect × List Ev :=
  let fsrc_x := wl_fixed_from_int (cUDiv s.src_x s.scale)
  let fsrc_y := wl_fixed_from_int (cUDiv s.src_y s.scale)
  let funset := wl_fixed_from_int (cUDiv (-1) s.scale)
  let (fsrc_w, fsrc_h, sw, sh) :=
    match s.buffer_transform with
    | .normal | .rot180 | .flipped | .flipped180 =>
        (wl_fixed_from_int (cUDiv s.src_width s.scale),
         wl_fixed_from_int (cUDiv s.src_height s.scale),
         s.scaled_width, s.video_height)
    | .rot90 | .rot270 | .flipped90 | .flipped270 =>
        (wl_fixed_from_int (cUDiv s.src_height s.scale),
         wl_fixed_from_int (cUDiv s.src_width s.scale),
         s.video_height, s.scaled_width)
  let src : Rect := ⟨0, 0, sw, sh⟩
  let dst : Rect := ⟨0, 0, s.render_rectangle.w, s.render_rectangle.h⟩
  let (res, viewportEvs) :=
    if s.has_viewporter then
      let res := center_rect src dst true
      (res,
       [Ev.video_viewport_set_destination res.w res.h] ++
         (if fsrc_w ≠ funset ∧ fsrc_h ≠ funset then
            [Ev.video_viewport_set_source fsrc_x fsrc_y fsrc_w fsrc_h]
          else []))
    else
      (center_rect src dst false, [])
  (res,
   viewportEvs ++
     [Ev.video_subsurface_set_position res.x res.y, Ev.set_buffer_transform] ++
     (if commit then [Ev.commit .video] else []))

/-- gst_wl_window_resize_video_surface: performs the computation above and
stores the resulting rectangle in video_rectangle (the only field the C
function writes). -/
def gst_wl_window_resize_video_surface (s : WinState) (commit : Bool) :
    WinState × List Ev :=
  ({ s with video_rectangle := (resize_video_surface_calc s commit).1 },
   (resize_video_surface_calc s commit).2)

/-- gst_wl_window_set_opaque: marks the video surface opaque for formats
without alpha, skipped entirely on DCSS platforms (HAS_DCSS). -/
def gst_wl_window_set_opaque (s : WinState) (info : VideoInfo) : List Ev :=
  if !info.hasAlpha then
    if s.has_dcss then [] else [Ev.set_opaque_region]
  else []

/-- gst_wl_window_update_borders.  With viewporter support the area
viewport is resized to the render rectangle and, if the area surface is
already mapped, nothing further happens; otherwise a border buffer (a 1x1
single-pixel or shm buffer, or a full-size shm buffer without viewporter)
is created, attached to the area surface and the surface damaged.  The
temporary GstBuffer holding the border pixels is internal to this function
and is not a pipeline buffer, so its refcounting is not traced. -/
def gst_wl_window_update_borders (s : WinState) : List Ev :=
  let pre :=
    if s.has_viewporter then
      [Ev.area_viewport_set_destination s.render_rectangle.w s.render_rectangle.h]
    else []
  if s.has_viewporter ∧ s.is_area_surface_mapped then pre
  else
    let (w, h) :=
      if s.has_viewporter then ((1 : Int), (1 : Int))
      else (s.render_rectangle.w, s.render_rectangle.h)
    let mk :=
      if w = 1 ∧ h = 1 ∧ s.has_single_pixel then [Ev.create_border_buffer true w h]
      else [Ev.create_border_buffer false w h]
    pre ++ mk ++ [Ev.attach_border, Ev.damage .area]

/-- gst_wl_window_update_geometry: repositions the area subsurface inside
its parent, redraws borders when mapped, and, only when configured, commits
the area surface (bracketing a synchronous video-subsurface resize when
video content is established, scaled_width different from zero). -/
def gst_wl_window_update_geometry (s : WinState) : WinState × List Ev :=
  let e1 :=
    if s.has_area_subsurface then
      [Ev.area_subsurface_set_position s.render_rectangle.x s.render_rectangle.y]
    else []
  let e2 := if s.is_area_surface_mapped then gst_wl_window_update_borders s else []
  if !s.configured then (s, e1 ++ e2)
  else
    let (s', e3) :=
      if s.scaled_width ≠ 0 then
        let (s2, re) := gst_wl_window_resize_video_surface s true
        (s2, [Ev.lock_commit, Ev.subsurface_set_sync] ++ re)
      else (s, [])
    let e5 :=
      if s.scaled_width ≠ 0 then [Ev.subsurface_set_desync, Ev.unlock_commit]
      else []
    (s', e1 ++ e2 ++ e3 ++ [Ev.commit .area] ++ e5)

/-- gst_wl_window_set_render_rectangle: no-op when the rectangle is
unchanged, otherwise store it and run update_geometry. -/
def gst_wl_window_set_render_rectangle (s : WinState) (x y w h : Int) :
    WinState × List Ev :=
  if s.render_rectangle.x = x ∧ s.render_rectangle.y = y ∧
      s.render_rectangle.w = w ∧ s.render_rectangle.h = h then
    (s, [])
  else
    gst_wl_window_update_geometry
      { s with render_rectangle := ⟨x, y, w, h⟩ }

/-- gst_wl_window_commit_buffer.  Reads the pending video info; when
present, recomputes the scaled sizes and performs the synchronous resize
and opacity update before the attach, and after the attach commits the
parent surface, desyncs the subsurface and clears the pending marker.
Under commit_lock: for a real buffer it creates the explicit-sync release
listener (when the extension is bound and the compositor does not already
hold the buffer), requests the frame callback, attaches, damages and
commits the video surface, and on the first visible commit also draws the
borders, commits the area surface, marks the area surface mapped and emits
the map signal.  For a NULL buffer it attaches NULL to both surfaces,
commits them, unmaps and clears clear_window. -/
def gst_wl_window_commit_buffer (s : WinState) (buffer : Option WlBuffer) :
    WinState × List Ev :=
  let info := s.next_video_info
  let (s1, eGeo) :=
    match info with
    | some i =>
        let s' := { s with
          scaled_width := scale_int_round i.width i.parN i.parD,
          video_width := i.width,
          video_height := i.height }
        let (s'', re) := gst_wl_window_resize_video_surface s' false
        (s'', [Ev.subsurface_set_sync] ++ re ++ gst_wl_window_set_opaque s'' i)
    | none => (s, [])
  let (s2, eBody) :=
    match buffer with
    | some b =>
        let eSync :=
          if !b.usedByCompositor ∧ s1.has_surface_sync then
            [Ev.create_buffer_release b.id]
          else []
        let eMain := eSync ++
          [Ev.request_frame_cb, Ev.attach b.id, Ev.set_buffer_scale s1.scale,
           Ev.damage .video, Ev.commit .video]
        if !s1.is_area_surface_mapped then
          ({ s1 with is_area_surface_mapped := true },
           eMain ++ gst_wl_window_update_borders s1 ++
             [Ev.commit .area, Ev.emit_map])
        else (s1, eMain)
    | none =>
        ({ s1 with is_area_surface_mapped := false, clear_window := false },
         [Ev.attach_null .video, Ev.set_buffer_scale s1.scale, Ev.commit .video,
          Ev.attach_null .area, Ev.commit .area])
  let (s3, eEnd) :=
    match info with
    | some _ =>
        ({ s2 with next_video_info := none },
         [Ev.commit .area, Ev.subsurface_set_desync])
    | none => (s2, [])
  (s3, eGeo ++ [Ev.lock_commit] ++ eBody ++ eEnd ++ [Ev.unlock_commit])

/-- gst_wl_window_render for a call that does not need to wait on
redraw_wait (see the module comment): refs the incoming buffer, stores the
new video info (overwriting any pending one), drops a previously staged
buffer when both slots are occupied (returning FALSE), then either promotes
the buffer to next_buffer — setting redraw_pending and requesting the
asynchronous commit callback — or stages it; a NULL buffer additionally
sets the sticky clear_window flag. -/
def gst_wl_window_render (s : WinState) (buffer : Option WlBuffer)
    (info : Option VideoInfo) : WinState × Bool × List Ev :=
  let eRef :=
    match buffer with
    | some b => [Ev.ref_gst_buffer b.id]
    | none => []
  let s1 :=
    match info with
    | some i => { s with next_video_info := some i }
    | none => s
  let (ret, eDrop) :=
    match s1.next_buffer, s1.staged_buffer with
    | some _, some sb => (false, [Ev.unref_buffer sb.id])
    | _, _ => (true, [])
  let (s2, eGo) :=
    match s1.next_buffer with
    | none =>
        ({ s1 with next_buffer := buffer, redraw_pending := true },
         [Ev.display_sync_commit_cb, Ev.display_flush])
    | some _ => ({ s1 with staged_buffer := buffer }, [])
  let s3 := if buffer.isNone then { s2 with clear_window := true } else s2
  (s3, ret, eRef ++ [Ev.lock_window] ++ eDrop ++ eGo ++ [Ev.unlock_window])

/-- frame_redraw_callback: destroys the frame callback, then under the
window lock promotes staged_buffer into next_buffer, clears redraw_pending
and signals redraw_wait; after releasing the lock it re-enters
gst_wl_window_commit_buffer when a buffer was promoted or clear_window is
set, and finally unrefs the promoted buffer. -/
def frame_redraw_callback (s : WinState) : WinState × List Ev :=
  let nb := s.staged_buffer
  let s1 := { s with
    next_buffer := nb, staged_buffer := none, redraw_pending := false }
  let pre := [Ev.destroy_frame_cb, Ev.lock_window, Ev.signal_redraw_wait,
    Ev.unlock_window]
  let (s2, eC) :=
    if nb.isSome ∨ s1.clear_window then
      ((gst_wl_window_commit_buffer s1 nb).1,
       [Ev.commit_buffer_call (nb.map WlBuffer.id)] ++
         (gst_wl_window_commit_buffer s1 nb).2)
    else (s1, [])
  let eU :=
    match nb with
    | some b => [Ev.unref_buffer b.id]
    | none => []
  (s2, pre ++ eC ++ eU)

/-- commit_callback: destroys the commit callback, reads next_buffer under
the window lock (it does not clear the field), calls
gst_wl_window_commit_buffer on it and finally unrefs it. -/
def commit_callback (s : WinState) : WinState × List Ev :=
  let nb := s.next_buffer
  let eU :=
    match nb with
    | some b => [Ev.unref_buffer b.id]
    | none => []
  ((gst_wl_window_commit_buffer s nb).1,
   [Ev.destroy_commit_cb, Ev.lock_window, Ev.unlock_window,
    Ev.commit_buffer_call (nb.map WlBuffer.id)] ++
     (gst_wl_window_commit_buffer s nb).2 ++ eU)

/-- gst_wl_window_finalize, restricted to the state machine: destroys the
frame and commit callbacks via the display, then under the window lock
clears redraw_pending and signals redraw_wait (waking a blocked render
call), and unrefs the staged buffer when one is held.  The subsequent
destruction of the protocol objects does not touch the state machine and is
not traced. -/
def gst_wl_window_finalize (s : WinState) : WinState × List Ev :=
  let s1 := { s with redraw_pending := false }
  let eS :=
    match s.staged_buffer with
    | some b => [Ev.unref_buffer b.id]
    | none => []
  (s1,
   [Ev.destroy_frame_cb, Ev.destroy_commit_cb, Ev.lock_window,
    Ev.signal_redraw_wait, Ev.unlock_window] ++ eS)

/-- handle_xdg_surface_configure: acks the configure event and, under
configure_mutex, sets configured and signals configure_cond. -/
def handle_xdg_surface_configure (s : WinState) : WinState × List Ev :=
  ({ s with configured := true }, [Ev.ack_configure, Ev.signal_configure])

/-- Resize trigger margin in pixels (RESIZE_MARGIN). -/
def RESIZE_MARGIN : Int := 20

/-- handle_xdg_toplevel_configure: the states array is scanned by a switch
with no effect; a configure whose width or height is at most twice the
resize margin is ignored, otherwise the render rectangle is set to
(0, 0, width, height) under render_lock. -/
def handle_xdg_toplevel_configure (s : WinState) (width height : Int) :
    WinState × List Ev :=
  if width ≤ 2 * RESIZE_MARGIN ∨ height ≤ 2 * RESIZE_MARGIN then (s, [])
  else
    ((gst_wl_window_set_render_rectangle s 0 0 width height).1,
     [Ev.lock_render] ++
       (gst_wl_window_set_render_rectangle s 0 0 width height).2 ++
       [Ev.unlock_render])

/-- gst_wl_window_set_source_crop.  The gst_buffer_get_video_crop_meta
lookup on the GstBuffer is external; the buffer is modelled by its optional
crop meta.  With meta the four crop fields are stored; without, only
src_width is reset to the -1 sentinel. -/
def gst_wl_window_set_source_crop (s : WinState) (crop : Option CropMeta) :
    WinState :=
  match crop with
  | some c =>
      { s with
        src_x := c.x
        src_y := c.y
        src_width := c.width
        src_height := c.height }
  | none => { s with src_width := -1 }

/-- The display capabilities and preferences gst_wl_window_new_toplevel
reads through the GstWlDisplay getters. -/
structure WlDisplay where
  has_xdg_wm_base : Bool
  has_fullscreen_shell : Bool
  preferred_width : Int
  preferred_height : Int
deriving DecidableEq

/-- G_TIME_SPAN_MILLISECOND: microseconds per millisecond. -/
def G_TIME_SPAN_MILLISECOND : Int := 1000

/-- The deadline computed in gst_wl_window_new_toplevel for the configure
wait: g_get_monotonic_time () + 100 * G_TIME_SPAN_MILLISECOND. -/
def configure_deadline (now : Int) : Int :=
  now + 100 * G_TIME_SPAN_MILLISECOND

/-- gst_wl_window_new_toplevel from the shell-protocol check onward, on the
base window state s0 produced by gst_wl_window_new_internal (whose
display-global binding and surface creation do not touch the state
machine).  now is g_get_monotonic_time () at the start of the wait and
configure_time the monotonic time at which the compositor delivers the
first xdg_surface.configure (none when it never arrives): the
g_cond_wait_until loop observes configured only if that event is signalled
no later than configure_deadline now; otherwise it logs a warning and
breaks.  Returns none exactly on the error paths of the C code (no usable
shell protocol; xdg surface and toplevel creation are modelled as
succeeding). -/
def gst_wl_window_new_toplevel (d : WlDisplay) (s0 : WinState)
    (info : VideoInfo) (fullscreen : Bool) (now : Int)
    (configure_time : Option Int) : Option (WinState × List Ev) :=
  let rectBranch : WinState → WinState × List Ev := fun s =>
    if d.has_xdg_wm_base ∧ fullscreen then (s, [])
    else
      let (w, h) :=
        if d.preferred_width > 0 ∧ d.preferred_height > 0 then
          (d.preferred_width, d.preferred_height)
        else if s.fullscreen_width ≤ 0 then
          (scale_int_round info.width info.parN info.parD, info.height)
        else (s.fullscreen_width, s.fullscreen_height)
      gst_wl_window_set_render_rectangle s 0 0 w h
  if d.has_xdg_wm_base then
    let e1 := [Ev.xdg_setup, Ev.set_fullscreen fullscreen]
    let s1 := { s0 with configured := false }
    let e2 := [Ev.commit .area, Ev.display_flush]
    let arrives :=
      match configure_time with
      | some t => decide (t ≤ configure_deadline now)
      | none => false
    let (s2, e3) :=
      if arrives then
        ((handle_xdg_surface_configure s1).1,
         (handle_xdg_surface_configure s1).2)
      else (s1, [Ev.warn_configure_timeout])
    some ((rectBranch s2).1, e1 ++ e2 ++ e3 ++ (rectBranch s2).2)
  else if d.has_fullscreen_shell then
    some ((rectBranch s0).1,
      [Ev.present_fullscreen_shell] ++ (rectBranch s0).2)
  else none

/-- gst_wl_window_init plus the zero-initialised GObject fields, with the
construction-time capability facts passed in (non-NULL area_subsurface,
viewporter, explicit sync, single-pixel manager, and the HAS_DCSS platform
query). -/
def init_state (has_area_subsurface has_viewporter has_surface_sync
    has_single_pixel has_dcss : Bool) : WinState :=
  { render_rectangle := ⟨0, 0, 0, 0⟩
    video_rectangle := ⟨0, 0, 0, 0⟩
    video_width := 0
    video_height := 0
    scaled_width := 0
    buffer_transform := .normal
    is_area_surface_mapped := false
    configured := true
    redraw_pending := false
    next_buffer := none
    next_video_info := none
    staged_buffer := none
    clear_window := false
    src_x := 0
    src_y := 0
    src_width := -1
    src_height := 0
    scale := 1
    fullscreen_width := -1
    fullscreen_height := -1
    has_area_subsurface := has_area_subsurface
    has_viewporter := has_viewporter
    has_surface_sync := has_surface_sync
    has_single_pixel := has_single_pixel
    has_dcss := has_dcss }

/-- A plain window state used to instantiate theorems on concrete inputs. -/
def test_state : WinState := init_state false false false false false

/-- A concrete window state that is mapped and viewporter-backed but has
not yet received its first configure acknowledgement. -/
def test_state_unconfigured : WinState :=
  { test_state with
    configured := false
    is_area_surface_mapped := true
    has_viewporter := true }

/-- Recogniser for gst_wl_buffer_unref_buffer events. -/
def is_unref : Ev → Bool
  | .unref_buffer _ => true
  | _ => false

/-- Recogniser for explicit-sync release-listener setup events. -/
def is_create_release : Ev → Bool
  | .create_buffer_release _ => true
  | _ => false

/-- Recogniser for the events gst_wl_window_resize_video_surface can
emit. -/
def is_resize_ev : Ev → Bool
  | .video_viewport_set_destination _ _ => true
  | .video_viewport_set_source _ _ _ _ => true
  | .video_subsurface_set_position _ _ => true
  | .set_buffer_transform => true
  | .commit .video => true
  | _ => false

/-- Recogniser for the events gst_wl_window_update_borders can emit. -/
def is_borders_ev : Ev → Bool
  | .area_viewport_set_destination _ _ => true
  | .create_border_buffer _ _ _ => true
  | .attach_border => true
  | .damage .area => true
  | _ => false

/-! Helper lemmas about the traces and state updates of the embedded
functions, shared by the claim theorems below. -/

theorem resize_calc_evs (s : WinState) (c : Bool) :
    ∀ e ∈ (resize_video_surface_calc s c).2, is_resize_ev e = true := by
  unfold resize_video_surface_calc
  cases s.buffer_transform <;> dsimp only <;> split_ifs <;>
    simp [is_resize_ev]

theorem not_mem_resize_calc (e : Ev) (he : is_resize_ev e = false)
    (s : WinState) (c : Bool) : e ∉ (resize_video_surface_calc s c).2 :=
  fun h => by simpa [he] using resize_calc_evs s c e h

theorem borders_evs (s : WinState) :
    ∀ e ∈ gst_wl_window_update_borders s, is_borders_ev e = true := by
  unfold gst_wl_window_update_borders
  dsimp only
  split_ifs <;> simp [is_borders_ev]

theorem not_mem_borders (e : Ev) (he : is_borders_ev e = false)
    (s : WinState) : e ∉ gst_wl_window_update_borders s :=
  fun h => by simpa [he] using borders_evs s e h

theorem opaque_evs (s : WinState) (i : VideoInfo) :
    ∀ e ∈ gst_wl_window_set_opaque s i, e = Ev.set_opaque_region := by
  unfold gst_wl_window_set_opaque
  split_ifs <;> simp

theorem not_mem_opaque (e : Ev) (he : ¬ e = Ev.set_opaque_region)
    (s : WinState) (i : VideoInfo) : e ∉ gst_wl_window_set_opaque s i :=
  fun h => he (opaque_evs s i e h)

theorem mem_opaque_iff (s : WinState) (i : VideoInfo) :
    Ev.set_opaque_region ∈ gst_wl_window_set_opaque s i ↔
      (i.hasAlpha = false ∧ s.has_dcss = false) := by
  unfold gst_wl_window_set_opaque
  split_ifs <;> simp_all

theorem set_buffer_transform_mem_resize (s : WinState) (c : Bool) :
    Ev.set_buffer_transform ∈ (resize_video_surface_calc s c).2 := by
  unfold resize_video_surface_calc
  cases s.buffer_transform <;> dsimp only <;> split_ifs <;> simp

theorem filter_release_resize (s : WinState) (c : Bool) :
    (resize_video_surface_calc s c).2.filter is_create_release = [] :=
  List.filter_eq_nil_iff.mpr (fun e he => by
    have h := resize_calc_evs s c e he
    cases e <;> simp_all [is_resize_ev, is_create_release])

theorem filter_release_borders (s : WinState) :
    (gst_wl_window_update_borders s).filter is_create_release = [] :=
  List.filter_eq_nil_iff.mpr (fun e he => by
    have h := borders_evs s e he
    cases e <;> simp_all [is_borders_ev, is_create_release])

theorem filter_release_opaque (s : WinState) (i : VideoInfo) :
    ( gst_wl_window_set_opaque s i).filter is_create_release = [] :=
  List.filter_eq_nil_iff.mpr (fun e he => by
    have h := opaque_evs s i e he
    subst h
    simp [is_create_release])

theorem commit_buffer_state (s : WinState) (buffer : Option WlBuffer) :
    (gst_wl_window_commit_buffer s buffer).1.next_buffer = s.next_buffer ∧
    (gst_wl_window_commit_buffer s buffer).1.staged_buffer = s.staged_buffer ∧
    (gst_wl_window_commit_buffer s buffer).1.redraw_pending = s.redraw_pending ∧
    (gst_wl_window_commit_buffer s buffer).1.configured = s.configured ∧
    (gst_wl_window_commit_buffer s buffer).1.next_video_info = none ∧
    (gst_wl_window_commit_buffer s buffer).1.is_area_surface_mapped
      = buffer.isSome ∧
    (gst_wl_window_commit_buffer s buffer).1.clear_window
      = (buffer.isSome && s.clear_window) := by
  unfold gst_wl_window_commit_buffer gst_wl_window_resize_video_surface
  cases hinfo : s.next_video_info <;> cases buffer <;> dsimp only <;>
    first
      | (split_ifs <;> simp_all)
      | simp_all

theorem commit_buffer_sync_count (s : WinState) (buffer : Option WlBuffer) :
    ((gst_wl_window_commit_buffer s buffer).2.count Ev.subsurface_set_sync)
      = if s.next_video_info.isSome then 1 else 0 := by
  have hr : ∀ (s' : WinState) (c : Bool),
      (resize_video_surface_calc s' c).2.count Ev.subsurface_set_sync = 0 :=
    fun s' c => List.count_eq_zero_of_not_mem
      (not_mem_resize_calc Ev.subsurface_set_sync rfl s' c)
  have hb : ∀ s' : WinState,
      (gst_wl_window_update_borders s').count Ev.subsurface_set_sync = 0 :=
    fun s' => List.count_eq_zero_of_not_mem
      (not_mem_borders Ev.subsurface_set_sync rfl s')
  have ho : ∀ (s' : WinState) (i : VideoInfo),
      ( gst_wl_window_set_opaque s' i).count Ev.subsurface_set_sync = 0 :=
    fun s' i =>
      List.count_eq_zero_of_not_mem
        ( not_mem_opaque Ev.subsurface_set_sync (by simp) s' i)
  unfold gst_wl_window_commit_buffer gst_wl_window_resize_video_surface
  cases hinfo : s.next_video_info <;> cases buffer <;> dsimp only <;>
    split_ifs <;>
    simp_all [List.count_append, hr, hb, ho, List.count_cons, List.count_nil]

theorem commit_buffer_mem (s : WinState) (buffer : Option WlBuffer) :
    (Ev.request_frame_cb ∈ (gst_wl_window_commit_buffer s buffer).2 ↔
      buffer.isSome = true) ∧
    Ev.commit .video ∈ (gst_wl_window_commit_buffer s buffer).2 ∧
    (Ev.emit_map ∈ (gst_wl_window_commit_buffer s buffer).2 ↔
      (buffer.isSome = true ∧ s.is_area_surface_mapped = false)) ∧
    (Ev.attach_null .video ∈ (gst_wl_window_commit_buffer s buffer).2 ↔
      buffer = none) ∧
    (Ev.attach_null .area ∈ (gst_wl_window_commit_buffer s buffer).2 ↔
      buffer = none) ∧
    (Ev.set_buffer_transform ∈ (gst_wl_window_commit_buffer s buffer).2 ↔
      s.next_video_info.isSome = true) ∧
    (Ev.subsurface_set_desync ∈ (gst_wl_window_commit_buffer s buffer).2 ↔
      s.next_video_info.isSome = true) := by
  unfold gst_wl_window_commit_buffer gst_wl_window_resize_video_surface
  cases hinfo : s.next_video_info <;> cases buffer <;> dsimp only <;>
    first
      | (split_ifs <;>
         simp_all [set_buffer_transform_mem_resize,
         not_mem_resize_calc Ev.request_frame_cb rfl,
         not_mem_resize_calc Ev.emit_map rfl,
         not_mem_resize_calc (Ev.attach_null .video) rfl,
         not_mem_resize_calc (Ev.attach_null .area) rfl,
         not_mem_resize_calc Ev.subsurface_set_desync rfl,
         not_mem_borders Ev.request_frame_cb rfl,
         not_mem_borders Ev.emit_map rfl,
         not_mem_borders (Ev.attach_null .video) rfl,
         not_mem_borders (Ev.attach_null .area) rfl,
         not_mem_borders Ev.subsurface_set_desync rfl,
         not_mem_borders Ev.set_buffer_transform rfl,
         not_mem_opaque Ev.request_frame_cb (by simp),
         not_mem_opaque Ev.emit_map (by simp),
         not_mem_opaque (Ev.attach_null .video) (by simp),
         not_mem_opaque (Ev.attach_null .area) (by simp),
         not_mem_opaque Ev.subsurface_set_desync (by simp),
         not_mem_opaque Ev.set_buffer_transform (by simp)])
      | simp_all [set_buffer_transform_mem_resize,
         not_mem_resize_calc Ev.request_frame_cb rfl,
         not_mem_resize_calc Ev.emit_map rfl,
         not_mem_resize_calc (Ev.attach_null .video) rfl,
         not_mem_resize_calc (Ev.attach_null .area) rfl,
         not_mem_resize_calc Ev.subsurface_set_desync rfl,
         not_mem_borders Ev.request_frame_cb rfl,
         not_mem_borders Ev.emit_map rfl,
         not_mem_borders (Ev.attach_null .video) rfl,
         not_mem_borders (Ev.attach_null .area) rfl,
         not_mem_borders Ev.subsurface_set_desync rfl,
         not_mem_borders Ev.set_buffer_transform rfl,
         not_mem_opaque Ev.request_frame_cb (by simp),
         not_mem_opaque Ev.emit_map (by simp),
         not_mem_opaque (Ev.attach_null .video) (by simp),
         not_mem_opaque (Ev.attach_null .area) (by simp),
         not_mem_opaque Ev.subsurface_set_desync (by simp),
         not_mem_opaque Ev.set_buffer_transform (by simp)]

theorem commit_buffer_release_filter (s : WinState) (buffer : Option WlBuffer) :
    ((gst_wl_window_commit_buffer s buffer).2.filter is_create_release)
      = (match buffer with
         | some b =>
             if !b.usedByCompositor && s.has_surface_sync then
               [Ev.create_buffer_release b.id]
             else []
         | none => []) := by
  unfold gst_wl_window_commit_buffer gst_wl_window_resize_video_surface
  cases hinfo : s.next_video_info <;> cases buffer <;> dsimp only <;>
    first
      | (split_ifs <;>
         simp_all [List.filter_append, filter_release_resize,
           filter_release_borders, filter_release_opaque, is_create_release])
      | simp_all [List.filter_append, filter_release_resize,
          filter_release_borders, filter_release_opaque, is_create_release]

theorem update_geometry_state (s : WinState) :
    (gst_wl_window_update_geometry s).1.render_rectangle
      = s.render_rectangle ∧
    (gst_wl_window_update_geometry s).1.configured = s.configured ∧
    (gst_wl_window_update_geometry s).1.is_area_surface_mapped
      = s.is_area_surface_mapped ∧
    (gst_wl_window_update_geometry s).1.has_viewporter = s.has_viewporter ∧
    (gst_wl_window_update_geometry s).1.next_video_info
      = s.next_video_info := by
  unfold gst_wl_window_update_geometry gst_wl_window_resize_video_surface
  dsimp only
  split_ifs <;> simp_all

theorem update_geometry_no_commit (s : WinState) (hc : s.configured = false) :
    ∀ sid, Ev.commit sid ∉ (gst_wl_window_update_geometry s).2 := by
  intro sid h
  unfold gst_wl_window_update_geometry at h
  dsimp only at h
  split_ifs at h <;>
    simp_all [not_mem_borders (Ev.commit sid) (by cases sid <;> rfl)]

theorem update_geometry_commits (s : WinState) (hc : s.configured = true) :
    Ev.commit .area ∈ (gst_wl_window_update_geometry s).2 := by
  unfold gst_wl_window_update_geometry
  rw [hc]
  dsimp only
  split_ifs <;> simp_all

theorem update_geometry_border_dest (s : WinState)
    (hm : s.is_area_surface_mapped = true) (hv : s.has_viewporter = true) :
    Ev.area_viewport_set_destination s.render_rectangle.w s.render_rectangle.h
      ∈ (gst_wl_window_update_geometry s).2 := by
  unfold gst_wl_window_update_geometry gst_wl_window_update_borders
  dsimp only
  split_ifs <;> simp_all

theorem set_rect_state (s : WinState) (x y w h : Int) :
    (gst_wl_window_set_render_rectangle s x y w h).1.render_rectangle
      = ⟨x, y, w, h⟩ ∧
    (gst_wl_window_set_render_rectangle s x y w h).1.configured
      = s.configured ∧
    (gst_wl_window_set_render_rectangle s x y w h).1.is_area_surface_mapped
      = s.is_area_surface_mapped ∧
    (gst_wl_window_set_render_rectangle s x y w h).1.has_viewporter
      = s.has_viewporter := by
  unfold gst_wl_window_set_render_rectangle
  split_ifs with hg
  · obtain ⟨h1, h2, h3, h4⟩ := hg
    refine ⟨?_, rfl, rfl, rfl⟩
    cases hr : s.render_rectangle
    simp_all
  · obtain ⟨g1, g2, g3, g4, _⟩ :=
      update_geometry_state { s with render_rectangle := ⟨x, y, w, h⟩ }
    exact ⟨g1, g2, g3, g4⟩

theorem set_rect_no_commit_unconfigured (s : WinState) (x y w h : Int)
    (hc : s.configured = false) :
    ∀ sid, Ev.commit sid ∉ (gst_wl_window_set_render_rectangle s x y w h).2 := by
  intro sid
  unfold gst_wl_window_set_render_rectangle
  split_ifs
  · simp
  · exact update_geometry_no_commit
      { s with render_rectangle := ⟨x, y, w, h⟩ } (by simpa using hc) sid

theorem set_rect_noop (s : WinState) (x y w h : Int)
    (hr : s.render_rectangle = ⟨x, y, w, h⟩) :
    gst_wl_window_set_render_rectangle s x y w h = (s, []) := by
  unfold gst_wl_window_set_render_rectangle
  rw [hr]
  simp

theorem render_core (s : WinState) (buffer : Option WlBuffer)
    (info : Option VideoInfo) :
    (gst_wl_window_render s buffer info).2.1
      = !(s.next_buffer.isSome && s.staged_buffer.isSome) ∧
    (gst_wl_window_render s buffer info).1.staged_buffer
      = (if s.next_buffer.isSome then buffer else s.staged_buffer) ∧
    ((gst_wl_window_render s buffer info).2.2.filter is_unref
      = match s.next_buffer, s.staged_buffer with
        | some _, some sb => [Ev.unref_buffer sb.id]
        | _, _ => []) ∧
    (gst_wl_window_render s buffer info).1.next_buffer.toList.length ≤ 1 ∧
    (gst_wl_window_render s buffer info).1.staged_buffer.toList.length ≤ 1 := by
  unfold gst_wl_window_render
  cases hnb : s.next_buffer <;> cases hsb : s.staged_buffer <;>
    cases buffer <;> cases info <;> dsimp only <;> simp_all [is_unref]

theorem render_stores_info (s : WinState) (b : Option WlBuffer)
    (i : VideoInfo) :
    (gst_wl_window_render s b (some i)).1.next_video_info = some i := by
  unfold gst_wl_window_render
  cases hnb : s.next_buffer <;> cases b <;> dsimp only <;> simp_all

theorem commit_buffer_area_commit_of_info (s : WinState)
    (b : Option WlBuffer) (hi : s.next_video_info.isSome = true) :
    Ev.commit .area ∈ (gst_wl_window_commit_buffer s b).2 := by
  unfold gst_wl_window_commit_buffer
  cases hinfo : s.next_video_info
  · simp [hinfo] at hi
  · cases b <;> dsimp only <;>
      first
        | (split_ifs <;> simp)
        | simp

theorem commit_buffer_opaque_iff (s : WinState) (b : Option WlBuffer)
    (i : VideoInfo) (hi : s.next_video_info = some i) :
    Ev.set_opaque_region ∈ (gst_wl_window_commit_buffer s b).2 ↔
      (i.hasAlpha = false ∧ s.has_dcss = false) := by
  unfold gst_wl_window_commit_buffer gst_wl_window_resize_video_surface
  rw [hi]
  cases b <;> dsimp only <;>
    first
      | (split_ifs <;>
         simp_all [mem_opaque_iff,
           not_mem_resize_calc Ev.set_opaque_region rfl,
           not_mem_borders Ev.set_opaque_region rfl])
      | simp_all [mem_opaque_iff,
          not_mem_resize_calc Ev.set_opaque_region rfl,
          not_mem_borders Ev.set_opaque_region rfl]

/-! Claim theorems. -/

/-- C1: a window holds at most one buffer in the in-flight slot
(next_buffer) and at most one in the staged slot (staged_buffer).  A render
call entered (with the redraw wait satisfied) while both slots are occupied
drops the previously staged buffer — exactly its reference is released
immediately, as the unref in the trace — and replaces the staged slot with
the new buffer, returning false; render returns true whenever no staged
buffer was replaced. -/
theorem render_replaces_staged_with_backpressure (s : WinState)
    (buffer : Option WlBuffer) (info : Option VideoInfo)
    (h : s.redraw_pending = false) :
    (gst_wl_window_render s buffer info).1.next_buffer.toList.length ≤ 1 ∧
    (gst_wl_window_render s buffer info).1.staged_buffer.toList.length ≤ 1 ∧
    (gst_wl_window_render s buffer info).2.1
      = !(s.next_buffer.isSome && s.staged_buffer.isSome) ∧
    (gst_wl_window_render s buffer info).1.staged_buffer
      = (if s.next_buffer.isSome then buffer else s.staged_buffer) ∧
    ((gst_wl_window_render s buffer info).2.2.filter is_unref
      = match s.next_buffer, s.staged_buffer with
        | some _, some sb => [Ev.unref_buffer sb.id]
        | _, _ => []) := by
  obtain ⟨h1, h2, h3, h4, h5⟩ := render_core s buffer info
  exact ⟨h4, h5, h1, h2, h3⟩

/-- C1 witness: at a concrete state with both slots occupied and
redraw_pending false, render returns false. -/
theorem render_replaces_staged_with_backpressure_witness :
    ({ test_state with
        next_buffer := some ⟨0, false⟩
        staged_buffer := some ⟨1, false⟩ } : WinState).redraw_pending
      = false ∧
    (gst_wl_window_render
        { test_state with
          next_buffer := some ⟨0, false⟩
          staged_buffer := some ⟨1, false⟩ }
        (some ⟨2, false⟩) none).2.1 = false := by
  refine ⟨rfl, ?_⟩
  have h := render_replaces_staged_with_backpressure
    { test_state with
      next_buffer := some ⟨0, false⟩
      staged_buffer := some ⟨1, false⟩ } (some ⟨2, false⟩) none rfl
  exact h.2.2.1.trans (by decide)

/-- C2: frame_redraw_callback moves the staged buffer (possibly none) into
the in-flight slot, clears the staged slot and redraw_pending, and signals
the redraw condition variable, all inside the locked prefix of its trace;
the direct re-entry into the commit sequence (commit_buffer_call) happens
exactly when a buffer was promoted or clear_window is still set, and it
appears only in the suffix after unlock_window — the window lock render
waits on is released before the commit logic runs. -/
theorem frame_redraw_promotes_and_commits_after_unlock (s : WinState) :
    (frame_redraw_callback s).1.next_buffer = s.staged_buffer ∧
    (frame_redraw_callback s).1.staged_buffer = none ∧
    (frame_redraw_callback s).1.redraw_pending = false ∧
    ∃ rest,
      (frame_redraw_callback s).2 =
        [Ev.destroy_frame_cb, Ev.lock_window, Ev.signal_redraw_wait,
          Ev.unlock_window] ++ rest ∧
      ((Ev.commit_buffer_call (s.staged_buffer.map WlBuffer.id) ∈ rest) ↔
        (s.staged_buffer.isSome = true ∨ s.clear_window = true)) := by
  unfold frame_redraw_callback
  dsimp only
  by_cases hcond : ((s.staged_buffer).isSome = true ∨ s.clear_window = true)
  · obtain ⟨c1, c2, c3, _⟩ := commit_buffer_state
      { s with
        next_buffer := s.staged_buffer
        staged_buffer := none
        redraw_pending := false } s.staged_buffer
    rw [if_pos hcond]
    dsimp only
    refine ⟨by simpa using c1, by simpa using c2, by simpa using c3,
      _, by rw [List.append_assoc], ?_⟩
    exact iff_of_true (by simp) hcond
  · rw [if_neg hcond]
    push_neg at hcond
    obtain ⟨hns, hnc⟩ := hcond
    have hsb : s.staged_buffer = none := by
      cases hsb : s.staged_buffer
      · rfl
      · rw [hsb] at hns
        simp at hns
    rw [hsb]
    dsimp only
    refine ⟨by simp [hsb], rfl, rfl, [], by simp, ?_⟩
    simp [hsb]
    simpa using hnc

/-- C3 counterexample: commit_callback does not remove the in-flight
buffer from next_buffer (the slot still holds buffer 0 afterwards), and
with explicit sync bound but the in-flight buffer already held by the
compositor no release-fence listener is set up; both refute the claim as
stated. -/
theorem commit_callback_claim_counterexample :
    (commit_callback { test_state with
        next_buffer := some ⟨0, false⟩ }).1.next_buffer = some ⟨0, false⟩ ∧
    ((commit_callback { test_state with
        has_surface_sync := true
        next_buffer := some ⟨1, true⟩ }).2.all
      (fun e => !is_create_release e)) = true := by decide

/-- C3 (amended): commit_callback reads next_buffer, leaving the in-flight
slot occupied (it is vacated later by the frame-completion callback), and
performs the attach/commit sequence: pending geometry is applied exactly
once (a single sync bracket in the trace) and the pending marker cleared;
the release-fence listener is set up exactly when explicit sync is bound
and the compositor does not already hold the buffer; for a real buffer a
frame-completion callback is requested and the video surface committed,
with the map signal emitted exactly on the first visible commit; with no
real buffer, NULL is attached to both the video and area surfaces and the
mapped flag cleared. -/
theorem commit_callback_reads_without_popping (s : WinState) :
    (commit_callback s).1.next_buffer = s.next_buffer ∧
    (commit_callback s).1.next_video_info = none ∧
    ((commit_callback s).2.count Ev.subsurface_set_sync
      = if s.next_video_info.isSome then 1 else 0) ∧
    (Ev.request_frame_cb ∈ (commit_callback s).2 ↔
      s.next_buffer.isSome = true) ∧
    Ev.commit .video ∈ (commit_callback s).2 ∧
    (Ev.emit_map ∈ (commit_callback s).2 ↔
      (s.next_buffer.isSome = true ∧ s.is_area_surface_mapped = false)) ∧
    (commit_callback s).1.is_area_surface_mapped = s.next_buffer.isSome ∧
    (Ev.attach_null .video ∈ (commit_callback s).2 ↔ s.next_buffer = none) ∧
    (Ev.attach_null .area ∈ (commit_callback s).2 ↔ s.next_buffer = none) ∧
    ((commit_callback s).2.filter is_create_release
      = match s.next_buffer with
        | some b =>
            if !b.usedByCompositor && s.has_surface_sync then
              [Ev.create_buffer_release b.id]
            else []
        | none => []) := by
  obtain ⟨m1, m2, m3, m4, m5, m6, m7⟩ := commit_buffer_mem s s.next_buffer
  obtain ⟨t1, _, _, _, t5, t6, t7⟩ := commit_buffer_state s s.next_buffer
  have hcount := commit_buffer_sync_count s s.next_buffer
  have hfilter := commit_buffer_release_filter s s.next_buffer
  unfold commit_callback
  dsimp only
  cases hnb : s.next_buffer <;>
    simp_all [List.count_append, List.filter_append, List.count_cons,
      is_create_release, is_unref]

/-- C4: a render call carrying video info overwrites any pending video
info (last-write-wins); the commit sequence that then runs with a pending
info applies the geometry exactly once — a single sync bracket, the
transform and desync requests, the opacity update (exactly when the format
has no alpha on a non-DCSS platform), and an area-surface commit, all
within that one commit_buffer trace — and clears the pending marker, so
the following commit sequence re-applies nothing. -/
theorem pending_video_info_last_write_applied_once (s0 s : WinState)
    (b0 b b' : Option WlBuffer) (i : VideoInfo)
    (hi : s.next_video_info = some i) :
    (gst_wl_window_render s0 b0 (some i)).1.next_video_info = some i ∧
    (gst_wl_window_commit_buffer s b).1.next_video_info = none ∧
    (gst_wl_window_commit_buffer s b).2.count Ev.subsurface_set_sync = 1 ∧
    Ev.set_buffer_transform ∈ (gst_wl_window_commit_buffer s b).2 ∧
    Ev.subsurface_set_desync ∈ (gst_wl_window_commit_buffer s b).2 ∧
    Ev.commit .area ∈ (gst_wl_window_commit_buffer s b).2 ∧
    (Ev.set_opaque_region ∈ (gst_wl_window_commit_buffer s b).2 ↔
      (i.hasAlpha = false ∧ s.has_dcss = false)) ∧
    ((gst_wl_window_commit_buffer
        (gst_wl_window_commit_buffer s b).1 b').2.count
      Ev.subsurface_set_sync = 0) ∧
    Ev.set_buffer_transform ∉
      (gst_wl_window_commit_buffer
        (gst_wl_window_commit_buffer s b).1 b').2 := by
  obtain ⟨_, _, _, _, n5, _, _⟩ := commit_buffer_state s b
  obtain ⟨_, _, _, _, _, m6, m7⟩ := commit_buffer_mem s b
  obtain ⟨_, _, _, _, _, m6', _⟩ :=
    commit_buffer_mem (gst_wl_window_commit_buffer s b).1 b'
  refine ⟨render_stores_info s0 b0 i, n5, ?_, ?_, ?_, ?_, ?_, ?_, ?_⟩
  · rw [commit_buffer_sync_count, hi]
    rfl
  · exact m6.mpr (by simp [hi])
  · exact m7.mpr (by simp [hi])
  · exact commit_buffer_area_commit_of_info s b (by simp [hi])
  · exact commit_buffer_opaque_iff s b i hi
  · rw [commit_buffer_sync_count, n5]
    rfl
  · intro hmem
    have hx := m6'.mp hmem
    rw [n5] at hx
    simp at hx

/-- C4 witness: from a concrete state with pending video info, the commit
sequence contains exactly one sync bracket. -/
theorem pending_video_info_last_write_applied_once_witness :
    ({ test_state with
        next_video_info := some ⟨640, 480, 1, 1, false⟩ } :
      WinState).next_video_info = some ⟨640, 480, 1, 1, false⟩ ∧
    (gst_wl_window_commit_buffer
        { test_state with
          next_video_info := some ⟨640, 480, 1, 1, false⟩ }
        none).2.count Ev.subsurface_set_sync = 1 := by
  refine ⟨rfl, ?_⟩
  exact (pending_video_info_last_write_applied_once test_state
    { test_state with
      next_video_info := some ⟨640, 480, 1, 1, false⟩ }
    none none none ⟨640, 480, 1, 1, false⟩ rfl).2.2.1

/-- C5: before the first configure acknowledgement, set_render_rectangle
calls store the rectangle but issue no wl_surface_commit; three
consecutive calls keep exactly the last rectangle; once configured becomes
true, the next geometry pass commits the area surface using exactly that
last rectangle (the border viewport destination carries its size). -/
theorem render_rectangle_buffered_until_configured (s : WinState)
    (r1 r2 r3 : Rect) (hc : s.configured = false)
    (hm : s.is_area_surface_mapped = true) (hv : s.has_viewporter = true) :
    let p1 := gst_wl_window_set_render_rectangle s r1.x r1.y r1.w r1.h
    let p2 := gst_wl_window_set_render_rectangle p1.1 r2.x r2.y r2.w r2.h
    let p3 := gst_wl_window_set_render_rectangle p2.1 r3.x r3.y r3.w r3.h
    let s4 := (handle_xdg_surface_configure p3.1).1
    p3.1.render_rectangle = r3 ∧
    (∀ sid, Ev.commit sid ∉ p1.2 ∧ Ev.commit sid ∉ p2.2 ∧
      Ev.commit sid ∉ p3.2) ∧
    Ev.commit .area ∈ (gst_wl_window_update_geometry s4).2 ∧
    Ev.area_viewport_set_destination r3.w r3.h
      ∈ (gst_wl_window_update_geometry s4).2 := by
  intro p1 p2 p3 s4
  obtain ⟨a1, a2, a3, a4⟩ := set_rect_state s r1.x r1.y r1.w r1.h
  obtain ⟨b1, b2, b3, b4⟩ := set_rect_state p1.1 r2.x r2.y r2.w r2.h
  obtain ⟨c1, c2, c3, c4⟩ := set_rect_state p2.1 r3.x r3.y r3.w r3.h
  have hc1 : p1.1.configured = false := by rw [a2, hc]
  have hc2 : p2.1.configured = false := by rw [b2, hc1]
  have hr3 : p3.1.render_rectangle = r3 := c1
  have hs4r : s4.render_rectangle = r3 := hr3
  have hs4c : s4.configured = true := rfl
  have hs4m : s4.is_area_surface_mapped = true :=
    c3.trans (b3.trans (a3.trans hm))
  have hs4v : s4.has_viewporter = true :=
    c4.trans (b4.trans (a4.trans hv))
  refine ⟨hr3, ?_, update_geometry_commits s4 hs4c, ?_⟩
  · intro sid
    exact ⟨set_rect_no_commit_unconfigured s _ _ _ _ hc sid,
      set_rect_no_commit_unconfigured p1.1 _ _ _ _ hc1 sid,
      set_rect_no_commit_unconfigured p2.1 _ _ _ _ hc2 sid⟩
  · have hmem := update_geometry_border_dest s4 hs4m hs4v
    rw [hs4r] at hmem
    exact hmem

/-- C5 witness: three concrete pre-configure calls issue no commit and
leave the last rectangle stored. -/
theorem render_rectangle_buffered_until_configured_witness :
    test_state_unconfigured.configured = false ∧
    (gst_wl_window_set_render_rectangle
      (gst_wl_window_set_render_rectangle
        (gst_wl_window_set_render_rectangle test_state_unconfigured
          0 0 100 100).1 0 0 200 200).1
      0 0 640 480).1.render_rectangle = ⟨0, 0, 640, 480⟩ := by
  refine ⟨rfl, ?_⟩
  exact (render_rectangle_buffered_until_configured test_state_unconfigured
    ⟨0, 0, 100, 100⟩ ⟨0, 0, 200, 200⟩ ⟨0, 0, 640, 480⟩ rfl rfl rfl).1

/-- C6: set_render_rectangle with the currently stored rectangle is a
no-op — unchanged state and an empty trace — so two consecutive identical
calls perform exactly one geometry update: the second call returns the
first call state unchanged with an empty trace. -/
theorem set_render_rectangle_idempotent (s : WinState) (x y w h : Int) :
    (gst_wl_window_set_render_rectangle
        (gst_wl_window_set_render_rectangle s x y w h).1 x y w h
      = ((gst_wl_window_set_render_rectangle s x y w h).1, [])) ∧
    (s.render_rectangle = ⟨x, y, w, h⟩ →
      gst_wl_window_set_render_rectangle s x y w h = (s, [])) := by
  refine ⟨?_, fun hr => set_rect_noop s x y w h hr⟩
  exact set_rect_noop _ x y w h (set_rect_state s x y w h).1

/-- C6 witness: an identical repeated call at a concrete state is a no-op. -/
theorem set_render_rectangle_idempotent_witness :
    test_state.render_rectangle = ⟨0, 0, 0, 0⟩ ∧
    gst_wl_window_set_render_rectangle test_state 0 0 0 0
      = (test_state, []) :=
  ⟨rfl, (set_render_rectangle_idempotent test_state 0 0 0 0).2 rfl⟩

/-- C7: set_source_crop with crop meta stores the crop rectangle from the
meta; without meta it resets the crop to the unset sentinel
src_width = -1, also when a previously passed buffer had left a crop
set. -/
theorem set_source_crop_stores_or_resets (s : WinState) (c : CropMeta) :
    (gst_wl_window_set_source_crop s (some c)).src_x = c.x ∧
    (gst_wl_window_set_source_crop s (some c)).src_y = c.y ∧
    (gst_wl_window_set_source_crop s (some c)).src_width = c.width ∧
    (gst_wl_window_set_source_crop s (some c)).src_height = c.height ∧
    (gst_wl_window_set_source_crop s none).src_width = -1 ∧
    (gst_wl_window_set_source_crop
        (gst_wl_window_set_source_crop s (some c)) none).src_width = -1 := by
  simp [gst_wl_window_set_source_crop]

/-- C8 counterexample: buffer 0 is rendered and promoted in flight (render
takes a GstBuffer reference), then the window is finalized — the teardown
path that runs when the display connection is lost; the render call
returned true (no error indication exists in its interface), and no unref
of buffer 0 ever appears in the combined trace, so the in-flight reference
is not released, refuting the claim as stated. -/
theorem render_after_display_loss_claim_counterexample :
    (gst_wl_window_render test_state (some ⟨0, false⟩) none).2.1 = true ∧
    Ev.ref_gst_buffer 0 ∈
      (gst_wl_window_render test_state (some ⟨0, false⟩) none).2.2 ∧
    Ev.unref_buffer 0 ∉
      ((gst_wl_window_render test_state (some ⟨0, false⟩) none).2.2 ++
        (gst_wl_window_finalize
          (gst_wl_window_render test_state (some ⟨0, false⟩) none).1).2) ∧
    (gst_wl_window_finalize
        (gst_wl_window_render test_state
          (some ⟨0, false⟩) none).1).1.next_buffer = some ⟨0, false⟩ := by
  decide

/-- C8 (amended): window finalize — the teardown path that runs after the
display connection is lost — wakes any render call blocked on the redraw
condition by clearing redraw_pending and signalling redraw_wait, and
releases exactly the staged buffer reference; the in-flight next_buffer
reference is not released by finalize, and render itself performs no
display-liveness check: its return value is false exactly on staged-buffer
replacement, never an error indication. -/
theorem finalize_wakes_render_and_releases_staged (s : WinState)
    (buffer : Option WlBuffer) (info : Option VideoInfo) :
    (gst_wl_window_finalize s).1.redraw_pending = false ∧
    Ev.signal_redraw_wait ∈ (gst_wl_window_finalize s).2 ∧
    ((gst_wl_window_finalize s).2.filter is_unref
      = match s.staged_buffer with
        | some b => [Ev.unref_buffer b.id]
        | none => []) ∧
    (gst_wl_window_finalize s).1.next_buffer = s.next_buffer ∧
    (gst_wl_window_render s buffer info).2.1
      = !(s.next_buffer.isSome && s.staged_buffer.isSome) := by
  have hret := (render_core s buffer info).1
  unfold gst_wl_window_finalize
  cases hsb : s.staged_buffer <;> simp_all [is_unref]

/-- C9: under the xdg shell, gst_wl_window_new_toplevel waits for the
configure acknowledgement only until configure_deadline now — exactly
now + 100 milliseconds in microseconds; when the acknowledgement would
arrive later than that, construction logs the timeout warning and still
returns a window (rather than failing or hanging): configured remains
false and the render rectangle is set to the best-effort preferred
geometry. -/
theorem new_toplevel_configure_timeout_not_fatal (d : WlDisplay)
    (s0 : WinState) (info : VideoInfo) (now t : Int)
    (hx : d.has_xdg_wm_base = true) (hlate : configure_deadline now < t)
    (hpw : d.preferred_width > 0) (hph : d.preferred_height > 0) :
    configure_deadline now = now + 100 * 1000 ∧
    ∃ w tr,
      gst_wl_window_new_toplevel d s0 info false now (some t)
        = some (w, tr) ∧
      Ev.warn_configure_timeout ∈ tr ∧
      w.configured = false ∧
      w.render_rectangle = ⟨0, 0, d.preferred_width, d.preferred_height⟩ := by
  have harr : ¬ (t ≤ configure_deadline now) := not_le.mpr hlate
  obtain ⟨w1, w2, _, _⟩ := set_rect_state
    { s0 with configured := false } 0 0 d.preferred_width d.preferred_height
  refine ⟨rfl, ?_⟩
  unfold gst_wl_window_new_toplevel
  dsimp only
  have hdec : ¬ ((decide (t ≤ configure_deadline now)) = true) := by
    simp only [decide_eq_true_eq]
    exact harr
  have hfb : ¬ (d.has_xdg_wm_base = true ∧ false = true) := by simp
  rw [if_pos hx, if_neg hdec, if_neg hfb, if_pos ⟨hpw, hph⟩]
  exact ⟨_, _, rfl, by simp, w2, w1⟩

/-- C9 witness: a concrete construction whose configure event arrives
after the 100 ms deadline still yields a window with the warning logged. -/
theorem new_toplevel_configure_timeout_not_fatal_witness :
    (⟨true, false, 320, 240⟩ : WlDisplay).has_xdg_wm_base = true ∧
    configure_deadline 0 < 200000 ∧
    ∃ w tr,
      gst_wl_window_new_toplevel ⟨true, false, 320, 240⟩ test_state
        ⟨640, 480, 1, 1, false⟩ false 0 (some 200000) = some (w, tr) ∧
      Ev.warn_configure_timeout ∈ tr ∧
      w.configured = false ∧
      w.render_rectangle = ⟨0, 0, 320, 240⟩ := by
  refine ⟨rfl, by decide, ?_⟩
  exact (new_toplevel_configure_timeout_not_fatal ⟨true, false, 320, 240⟩
    test_state ⟨640, 480, 1, 1, false⟩ 0 200000 rfl (by decide) (by decide)
    (by decide)).2

/-- C10: an xdg toplevel configure whose proposed width or height is at
most 2 * RESIZE_MARGIN (40 pixels) is ignored entirely — same state, empty
trace; with both dimensions above the threshold the render rectangle is
set to (0, 0, width, height). -/
theorem xdg_toplevel_configure_margin_filter (s : WinState)
    (width height : Int) :
    ((width ≤ 2 * RESIZE_MARGIN ∨ height ≤ 2 * RESIZE_MARGIN) →
      handle_xdg_toplevel_configure s width height = (s, [])) ∧
    (2 * RESIZE_MARGIN < width → 2 * RESIZE_MARGIN < height →
      (handle_xdg_toplevel_configure s width height).1.render_rectangle
        = ⟨0, 0, width, height⟩) := by
  constructor
  · intro hsmall
    unfold handle_xdg_toplevel_configure
    rw [if_pos hsmall]
  · intro h1 h2
    unfold handle_xdg_toplevel_configure
    rw [if_neg (by push_neg; exact ⟨h1, h2⟩)]
    exact (set_rect_state s 0 0 width height).1

/-- C10 witness: a 30-pixel-wide configure is ignored while a 100 by 200
configure sets the render rectangle. -/
theorem xdg_toplevel_configure_margin_filter_witness :
    ((30 : Int) ≤ 2 * RESIZE_MARGIN ∨ (600 : Int) ≤ 2 * RESIZE_MARGIN) ∧
    handle_xdg_toplevel_configure test_state 30 600 = (test_state, []) ∧
    (handle_xdg_toplevel_configure test_state 100 200).1.render_rectangle
      = ⟨0, 0, 100, 200⟩ := by
  refine ⟨by decide, ?_, ?_⟩
  · exact (xdg_toplevel_configure_margin_filter test_state 30 600).1
      (by decide)
  · exact (xdg_toplevel_configure_margin_filter test_state 100 200).2
      (by decide) (by decide)

end GstWlWindow
